import Mathlib

/-!
# bahamut: access gate and response writer

A shallow embedding of `processor_helpers.go` (the two gate functions
`CheckAuthentication` and `CheckAuthorization`) together with the parts of the
response layer that the properties below talk about: pagination, the common
headers, the error envelope and the choice of status and body.

Go values are embedded as follows.

* `error` is `Option GoError`; `none` is the nil error.
* An interface argument that may be nil (`Authenticator`, `Authorizer`) is an
  `Option` of a record holding the interface's method.
* A method of a collaborator is arbitrary Go code: it receives the `*Context`
  it is called with and may read and change everything it can reach.  That is
  the type parameter `σ` (the store); the method is a function of the pointer
  and the store that returns its Go results and the new store.
* Every call of a collaborator's method is appended to a log kept next to the
  store, so that "is invoked", "is invoked once" and "is never invoked" are
  statements about a run.
-/

namespace Bahamut

/-! ## Values of the libraries the source imports -/

/-- Status `http.StatusUnauthorized`. -/
def StatusUnauthorized : Int := 401

/-- Status `http.StatusForbidden`. -/
def StatusForbidden : Int := 403

/-- Status `http.StatusInternalServerError`. -/
def StatusInternalServerError : Int := 500

/-- The struct `elemental.Error`, fields in the order of its JSON form
(`code, description, subject, title, data`).  `Data` is `none` for nil. -/
structure Error where
  Code : Int
  Description : String
  Subject : String
  Title : String
  Data : Option String
  deriving DecidableEq

/-- The constructor `elemental.NewError(title, description, subject, code)`:
the four arguments are stored and no data is attached. -/
def NewError (title description subject : String) (code : Int) : Error :=
  Error.mk code description subject title none

/-- A non-nil value of the Go interface `error`: either an `elemental.Error`
or a value of any other error type, given by the text its `Error()` method
returns. -/
inductive GoError where
  | elemental (e : Error) : GoError
  | other (message : String) : GoError
  deriving DecidableEq

/-- The method `err.Error()`.  The text of an `elemental.Error` is produced by
the elemental library, which is not part of this repository: it is the
parameter `errorString`. -/
def GoError.Error (errorString : Error → String) : GoError → String
  | GoError.elemental e => errorString e
  | GoError.other message => message

/-! ## The world a gate runs in -/

/-- A `*Context`: the address of the request's context in the store. -/
abbrev ContextPtr := Nat

/-- One call of a collaborator's method, with the context it was handed. -/
inductive Call where
  | IsAuthenticated (ctx : ContextPtr) : Call
  | IsAuthorized (ctx : ContextPtr) : Call
  deriving DecidableEq

/-- The response under construction, as `httptest.ResponseRecorder` shows it:
status code, headers (latest value of each key) and body. -/
structure ResponseRecorder where
  Code : Int
  HeaderMap : List (String × String)
  Body : String
  deriving DecidableEq

/-- The recorder `httptest.NewRecorder()`: status 200, no header, empty body. -/
def NewRecorder : ResponseRecorder := ResponseRecorder.mk 200 [] ""

/-- State of a run: the store the collaborators work on (the contexts
included), the response of the request, and the log of collaborator calls,
oldest first. -/
structure World (σ : Type) where
  store : σ
  w : ResponseRecorder
  calls : List Call

/-- The interface `Authenticator`: `IsAuthenticated(ctx) (bool, error)`. -/
structure Authenticator (σ : Type) where
  IsAuthenticated : ContextPtr → σ → (Bool × Option GoError) × σ

/-- The interface `Authorizer`: `IsAuthorized(ctx) (bool, error)`. -/
structure Authorizer (σ : Type) where
  IsAuthorized : ContextPtr → σ → (Bool × Option GoError) × σ

/-- The call `authenticator.IsAuthenticated(ctx)`: runs the method on the
store and logs the call. -/
def callIsAuthenticated {σ : Type} (a : Authenticator σ) (ctx : ContextPtr)
    (s : World σ) : (Bool × Option GoError) × World σ :=
  let r := a.IsAuthenticated ctx s.store
  (r.1, World.mk r.2 s.w (s.calls ++ [Call.IsAuthenticated ctx]))

/-- The call `authorizer.IsAuthorized(ctx)`: runs the method on the store and
logs the call. -/
def callIsAuthorized {σ : Type} (a : Authorizer σ) (ctx : ContextPtr)
    (s : World σ) : (Bool × Option GoError) × World σ :=
  let r := a.IsAuthorized ctx s.store
  (r.1, World.mk r.2 s.w (s.calls ++ [Call.IsAuthorized ctx]))

/-! ## processor_helpers.go -/

/-- The function `CheckAuthentication(authenticator, ctx) error`. -/
def CheckAuthentication {σ : Type} (authenticator : Option (Authenticator σ))
    (ctx : ContextPtr) (s : World σ) : Option GoError × World σ :=
  match authenticator with
  | none => (none, s)
  | some a =>
    let r := callIsAuthenticated a ctx s
    let ok := r.1.1
    match r.1.2 with
    | some err => (some err, r.2)
    | none =>
      if !ok then
        (some (GoError.elemental (NewError "Unauthorized"
          "You are not authorized to access this resource." "bahamut" StatusUnauthorized)), r.2)
      else
        (none, r.2)

/-- The function `CheckAuthorization(authorizer, ctx) error`.  `errorString`
is the elemental library's `Error()` text, used by `err.Error()`. -/
def CheckAuthorization {σ : Type} (errorString : Error → String)
    (authorizer : Option (Authorizer σ)) (ctx : ContextPtr) (s : World σ) :
    Option GoError × World σ :=
  match authorizer with
  | none => (none, s)
  | some a =>
    let r := callIsAuthorized a ctx s
    let ok := r.1.1
    match r.1.2 with
    | some err =>
      (some (GoError.elemental (NewError "Internal Server Error"
        (GoError.Error errorString err) "bahamut" StatusInternalServerError)), r.2)
    | none =>
      if !ok then
        (some (GoError.elemental (NewError "Forbidden"
          "You are not allowed to access this resource." "bahamut" StatusForbidden)), r.2)
      else
        (none, r.2)

/-! ## The gate as its callers compose it -/

/-- Modelled from the spec: the access gate, the caller of the two checks (the
operation dispatch of the repository, not among the source files).  "Two
independent checks, composed sequentially; authorization only runs if
authentication passes"; it stops "early at the first rejection" with that
rejection's error. -/
def AccessGate {σ : Type} (errorString : Error → String)
    (authenticator : Option (Authenticator σ)) (authorizer : Option (Authorizer σ))
    (ctx : ContextPtr) (s : World σ) : Option GoError × World σ :=
  let r := CheckAuthentication authenticator ctx s
  match r.1 with
  | some err => (some err, r.2)
  | none => CheckAuthorization errorString authorizer ctx r.2

/-! ## Pagination of the response -/

/-- The four page numbers of a response. -/
structure Pagination where
  first : Int
  prev : Int
  next : Int
  last : Int
  deriving DecidableEq

/-- Modelled from the spec: the pagination calculator used by
`writeHTTPResponse` (api_server_helpers.go, not among the source files; only
its test is).  "`perPage <= 0` or `total <= 0` ⇒ all four values collapse to
`1`"; "`last = ceil(total / perPage)`, floored at `1`"; "`first = 1`";
"`prev = max(first, currentPage - 1)`"; "`next = min(last, currentPage + 1)`".
The ceiling is computed in integers as `(total + perPage - 1) / perPage`. -/
def computePagination (total currentPage perPage : Int) : Pagination :=
  if perPage ≤ 0 ∨ total ≤ 0 then
    Pagination.mk 1 1 1 1
  else
    let last := max 1 ((total + perPage - 1) / perPage)
    let first := 1
    let prev := max first (currentPage - 1)
    let next := min last (currentPage + 1)
    Pagination.mk first prev next last

/-- The method `Header().Set(key, value)`: the value of `key` is replaced. -/
def headerSet (h : List (String × String)) (key value : String) : List (String × String) :=
  h.filter (fun kv => kv.1 != key) ++ [(key, value)]

/-- The method `Header().Get(key)`: the value of `key`, or the empty string. -/
def headerGet (h : List (String × String)) (key : String) : String :=
  match h.find? (fun kv => kv.1 == key) with
  | some kv => kv.2
  | none => ""

/-- Modelled from the spec: the pagination headers `writeHTTPResponse` sets
(api_server_helpers.go, not among the source files).  The header composer
"sets `X-Page-First`, `X-Page-Prev`, `X-Page-Next`, `X-Page-Last` from the
Pagination Calculator's output", "integers as decimal strings". -/
def setPaginationHeaders (w : ResponseRecorder) (total currentPage perPage : Int) :
    ResponseRecorder :=
  let p := computePagination total currentPage perPage
  let h1 := headerSet w.HeaderMap "X-Page-First" (toString p.first)
  let h2 := headerSet h1 "X-Page-Prev" (toString p.prev)
  let h3 := headerSet h2 "X-Page-Next" (toString p.next)
  let h4 := headerSet h3 "X-Page-Last" (toString p.last)
  ResponseRecorder.mk w.Code h4 w.Body

/-! ## The response writer

`writeHTTPResponse`, `writeHTTPError` and `setCommonHeader` live in
api_server_helpers.go, which is not among the source files; only its test is.
They are modelled from the spec, over the recorder above.  The JSON encoder is
a capability: `jsonString` is the JSON text of a Go string and `marshal` the
encoding of a payload, which may fail after some output. -/

/-- The operation of a request (`elemental.Operation`): "one of Create,
Retrieve, RetrieveMany, Update, Delete, Info, Patch". -/
inductive Operation where
  | Create : Operation
  | Retrieve : Operation
  | RetrieveMany : Operation
  | Update : Operation
  | Delete : Operation
  | Info : Operation
  | Patch : Operation
  deriving DecidableEq

/-- The count of a context: "struct with `Total` and, implicitly, current page
/ per-page derived from the originating request". -/
structure Count where
  Total : Int
  Page : Int
  PerPage : Int
  deriving DecidableEq

/-- The error state of a request when it is set: "one entry, or an ordered
sequence of entries" of length at least 1 (`elemental.Error`,
`elemental.Errors`). -/
inductive ErrorInput where
  | single (e : Error) : ErrorInput
  | collection (first : Error) (rest : List Error) : ErrorInput
  deriving DecidableEq

/-- The "ordered sequence of error entries (length ≥ 1)" an error input is
normalized to. -/
def ErrorInput.entries : ErrorInput → List Error
  | ErrorInput.single e => [e]
  | ErrorInput.collection first rest => first :: rest

/-- The first entry of the normalized sequence. -/
def ErrorInput.first : ErrorInput → Error
  | ErrorInput.single e => e
  | ErrorInput.collection first _ => first

/-- What the JSON encoder does with a payload: the JSON text, or a failure
after `written` has been produced. -/
inductive EncodeResult where
  | ok (json : String) : EncodeResult
  | fail (written : String) : EncodeResult
  deriving DecidableEq

/-- The per-request context, as far as the response writer reads it:
operation, inbound HTTP method, `Origin` header of the request, count, output
data (`none` is nil) and the optional error. -/
structure Context (π : Type) where
  Operation : Operation
  Method : String
  Origin : String
  Count : Count
  OutputData : Option π
  Error : Option ErrorInput

/-- Modelled from the spec: `setCommonHeader` (api_server_helpers.go, not
among the source files).  "Always sets: `Content-Type: application/json;
charset=UTF-8`"; "sets `Access-Control-Allow-Origin` to the given origin string
if non-empty, else to `*`"; the fixed expose-headers, allow-methods and
allow-headers lists of the external interface; and
"`Access-Control-Allow-Credentials: true`". -/
def setCommonHeader (w : ResponseRecorder) (origin : String) : ResponseRecorder :=
  let h1 := headerSet w.HeaderMap "Content-Type" "application/json; charset=UTF-8"
  let h2 := headerSet h1 "Access-Control-Allow-Origin" (if origin = "" then "*" else origin)
  let h3 := headerSet h2 "Access-Control-Expose-Headers"
    "X-Requested-With, X-Count-Local, X-Count-Total, X-PageCurrent, X-Page-Size, X-Page-Prev, X-Page-Next, X-Page-First, X-Page-Last, X-Namespace"
  let h4 := headerSet h3 "Access-Control-Allow-Methods"
    "GET, POST, PUT, DELETE, PATCH, HEAD, OPTIONS"
  let h5 := headerSet h4 "Access-Control-Allow-Headers"
    "Authorization, Content-Type, Cache-Control, If-Modified-Since, X-Requested-With, X-Count-Local, X-Count-Total, X-PageCurrent, X-Page-Size, X-Page-Prev, X-Page-Next, X-Page-First, X-Page-Last, X-Namespace"
  let h6 := headerSet h5 "Access-Control-Allow-Credentials" "true"
  ResponseRecorder.mk w.Code h6 w.Body

/-- Modelled from the spec: the JSON object of one error entry, "with stable
field order `code, description, subject, title, data` (data is `null` when
absent)".  The code is a decimal integer; attached data is held by its JSON
text. -/
def encodeError (jsonString : String → String) (e : Error) : String :=
  "\x7b\"code\":" ++ toString e.Code
    ++ ",\"description\":" ++ jsonString e.Description
    ++ ",\"subject\":" ++ jsonString e.Subject
    ++ ",\"title\":" ++ jsonString e.Title
    ++ ",\"data\":" ++ (match e.Data with
        | none => "null"
        | some d => d)
    ++ "\x7d"

/-- Modelled from the spec: `writeHTTPError` (api_server_helpers.go, not among
the source files).  "Normalizes input to an ordered sequence of error
entries"; "applies common headers using `origin` before writing the body";
"sets response status to the `code` of the first entry"; "serializes as a JSON
array", which the encoder ends with a newline. -/
def writeHTTPError (jsonString : String → String) (w : ResponseRecorder) (origin : String)
    (err : ErrorInput) : ResponseRecorder :=
  let w1 := setCommonHeader w origin
  ResponseRecorder.mk (ErrorInput.first err).Code w1.HeaderMap
    (w1.Body ++ "[" ++ String.intercalate "," ((ErrorInput.entries err).map (encodeError jsonString))
      ++ "]" ++ "\n")

/-- Modelled from the spec: the encoding of the output data.  "OutputData
(including `nil`, a single entity, or an ordered collection) is serialized to
the response body as JSON": nil is `null`, anything else is up to the
encoder. -/
def encodeOutput {π : Type} (marshal : π → EncodeResult) : Option π → EncodeResult
  | none => EncodeResult.ok "null"
  | some d => marshal d

/-- Modelled from the spec: the write of status and body.  The payload is
encoded aside; on success the status is written and the JSON text, ended by a
newline, is the body.  "If OutputData cannot be serialized" the writer
"recovers, discards any partial write, and instead writes a 500 Internal
Server Error with an empty or minimal error body": here an empty one. -/
def writeBody {π : Type} (marshal : π → EncodeResult) (w : ResponseRecorder) (status : Int)
    (data : Option π) : ResponseRecorder :=
  match encodeOutput marshal data with
  | EncodeResult.ok json => ResponseRecorder.mk status w.HeaderMap (w.Body ++ json ++ "\n")
  | EncodeResult.fail _ => ResponseRecorder.mk StatusInternalServerError w.HeaderMap w.Body

/-- Modelled from the spec: the headers `writeHTTPResponse` composes on a
response without error (api_server_helpers.go, not among the source files):
the common headers for the origin of the request, then the pagination headers
for the count of the context.  "Pagination headers are always composed before
the body is written." -/
def composeHeaders {π : Type} (w : ResponseRecorder) (c : Context π) : ResponseRecorder :=
  setPaginationHeaders (setCommonHeader w c.Origin) c.Count.Total c.Count.Page c.Count.PerPage

/-- Modelled from the spec: the status of a response without error, by the rows
of the status table of `writeHTTPResponse`: "Operation = Create" is 201;
"Operation = Info, or inbound method = HEAD" is 204; Delete is "200 (or 204 if
no body content)"; the other operations are 200.  The rows for Create and for
method HEAD both apply to a Create request with method HEAD, and neither the
spec nor the test says which of the two is tried first: `headFirst` is that
order, and nothing below depends on it. -/
def successStatus {π : Type} (headFirst : Bool) (c : Context π) : Int :=
  if headFirst then
    if c.Operation = Operation.Info ∨ c.Method = "HEAD" then 204
    else if c.Operation = Operation.Create then 201
    else if c.Operation = Operation.Delete ∧ c.OutputData.isNone then 204
    else 200
  else
    if c.Operation = Operation.Create then 201
    else if c.Operation = Operation.Info ∨ c.Method = "HEAD" then 204
    else if c.Operation = Operation.Delete ∧ c.OutputData.isNone then 204
    else 200

/-- Modelled from the spec: `writeHTTPResponse` (api_server_helpers.go, not
among the source files).  "`ctx.Error` is set" delegates to the error envelope
encoder.  Otherwise the headers are composed, the status is the one of the
status table, and the body is the "JSON value/array of the serialized payload,
or empty body for 204/HEAD". -/
def writeHTTPResponse {π : Type} (headFirst : Bool) (jsonString : String → String)
    (marshal : π → EncodeResult) (w : ResponseRecorder) (c : Context π) : ResponseRecorder :=
  match c.Error with
  | some err => writeHTTPError jsonString w c.Origin err
  | none =>
    let w2 := composeHeaders w c
    if successStatus headFirst c = 204 ∨ c.Method = "HEAD" then
      ResponseRecorder.mk (successStatus headFirst c) w2.HeaderMap w2.Body
    else
      writeBody marshal w2 (successStatus headFirst c) c.OutputData

/-! ## Collaborators and worlds used as concrete inputs -/

/-- An authenticator that answers `(ok, err)` whatever the context, and counts
its calls in a store of type `Nat`. -/
def constAuthenticator (ok : Bool) (err : Option GoError) : Authenticator Nat :=
  Authenticator.mk (fun _ n => ((ok, err), n + 1))

/-- An authorizer that answers `(ok, err)` whatever the context, and counts its
calls in a store of type `Nat`. -/
def constAuthorizer (ok : Bool) (err : Option GoError) : Authorizer Nat :=
  Authorizer.mk (fun _ n => ((ok, err), n + 1))

/-- A fresh world: store `0`, a new recorder, no call made yet. -/
def world0 : World Nat := World.mk 0 NewRecorder []

/-- A rendering of `elemental.Error` values used for concrete inputs. -/
def sampleErrorString (e : Error) : String :=
  "error " ++ toString e.Code ++ " (" ++ e.Subject ++ "): " ++ e.Title ++ ": " ++ e.Description

/-- An upstream error with a status of its own (503). -/
def upstreamError : GoError :=
  GoError.elemental (NewError "Unavailable" "token service down" "auth" 503)

/-- A JSON rendering of Go strings used for concrete inputs: the text between
double quotes (right for texts that need no escape). -/
def sampleJSONString (t : String) : String := "\"" ++ t ++ "\""

/-- Payloads used as concrete inputs: a list of entities with a `name` field,
as in the test, or a value the encoder rejects. -/
inductive SamplePayload where
  | entities (names : List String) : SamplePayload
  | unmarshalable : SamplePayload
  deriving DecidableEq

/-- The encoder on the sample payloads: the array of the entities' objects,
or a failure after the first two characters. -/
def sampleMarshal : SamplePayload → EncodeResult
  | SamplePayload.entities names =>
    EncodeResult.ok ("[" ++ String.intercalate ","
      (names.map (fun n => "\x7b\"name\":" ++ sampleJSONString n ++ "\x7d")) ++ "]")
  | SamplePayload.unmarshalable => EncodeResult.fail "[\x7b"

/-- The context of the test: page 2, 10 per page, 40 in total, no error. -/
def sampleContext (op : Operation) (method : String) (data : Option SamplePayload)
    (err : Option ErrorInput) : Context SamplePayload :=
  Context.mk op method "" (Count.mk 40 2 10) data err

/-! ## Lemmas on the definitions -/

/-- The world after `CheckAuthentication`, for a configured authenticator: the
one the logged call left, whatever the answer. -/
theorem CheckAuthentication_world {σ : Type} (a : Authenticator σ) (ctx : ContextPtr)
    (s : World σ) :
    (CheckAuthentication (some a) ctx s).2 = (callIsAuthenticated a ctx s).2 := by
  unfold CheckAuthentication
  dsimp only
  split
  · rfl
  · split <;> rfl

/-- The world after `CheckAuthorization`, for a configured authorizer: the one
the logged call left, whatever the answer. -/
theorem CheckAuthorization_world {σ : Type} (errorString : Error → String) (a : Authorizer σ)
    (ctx : ContextPtr) (s : World σ) :
    (CheckAuthorization errorString (some a) ctx s).2 = (callIsAuthorized a ctx s).2 := by
  unfold CheckAuthorization
  dsimp only
  split
  · rfl
  · split <;> rfl

/-! ## The authentication gate -/

/-- C1: when the configured authenticator's `IsAuthenticated` returns a non-nil
error `err`, with either boolean, `CheckAuthentication` returns exactly `err`:
the same value, not wrapped and not replaced by a 401. -/
theorem CheckAuthentication_error_unchanged {σ : Type} (a : Authenticator σ)
    (ctx : ContextPtr) (s : World σ) (ok : Bool) (err : GoError)
    (h : (a.IsAuthenticated ctx s.store).1 = (ok, some err)) :
    (CheckAuthentication (some a) ctx s).1 = some err := by
  simp [CheckAuthentication, callIsAuthenticated, h]

/-- Witness of C1: an authenticator answering `(true, err)` with a 503 error. -/
theorem CheckAuthentication_error_unchanged_witness :
    ((constAuthenticator true (some upstreamError)).IsAuthenticated 7 world0.store).1
        = (true, some upstreamError)
      ∧ (CheckAuthentication (some (constAuthenticator true (some upstreamError))) 7 world0).1
        = some upstreamError :=
  ⟨rfl, CheckAuthentication_error_unchanged
    (constAuthenticator true (some upstreamError)) 7 world0 true upstreamError rfl⟩

/-- C2: when the configured authorizer's `IsAuthorized` returns a non-nil error
`err`, with either boolean and whatever code `err` carries,
`CheckAuthorization` returns a new error with title "Internal Server Error",
description `err.Error()`, subject "bahamut", code 500 and no data. -/
theorem CheckAuthorization_error_wrapped {σ : Type} (errorString : Error → String)
    (a : Authorizer σ) (ctx : ContextPtr) (s : World σ) (ok : Bool) (err : GoError)
    (h : (a.IsAuthorized ctx s.store).1 = (ok, some err)) :
    (CheckAuthorization errorString (some a) ctx s).1
      = some (GoError.elemental
          (Error.mk 500 (GoError.Error errorString err) "bahamut" "Internal Server Error" none)) := by
  simp [CheckAuthorization, callIsAuthorized, h, NewError, StatusInternalServerError]

/-- Witness of C2: an authorizer answering `(true, err)` with a 503 error. -/
theorem CheckAuthorization_error_wrapped_witness :
    ((constAuthorizer true (some upstreamError)).IsAuthorized 7 world0.store).1
        = (true, some upstreamError)
      ∧ (CheckAuthorization sampleErrorString
          (some (constAuthorizer true (some upstreamError))) 7 world0).1
        = some (GoError.elemental
            (Error.mk 500 (GoError.Error sampleErrorString upstreamError) "bahamut"
              "Internal Server Error" none)) :=
  ⟨rfl, CheckAuthorization_error_wrapped sampleErrorString
    (constAuthorizer true (some upstreamError)) 7 world0 true upstreamError rfl⟩

/-- C3: when the configured authenticator's `IsAuthenticated` returns
`(false, nil)`, `CheckAuthentication` returns the error with title
"Unauthorized", description "You are not authorized to access this resource.",
subject "bahamut", code 401 and no data: one fixed value, whatever the
context, the authenticator and the world. -/
theorem CheckAuthentication_denied {σ : Type} (a : Authenticator σ) (ctx : ContextPtr)
    (s : World σ) (h : (a.IsAuthenticated ctx s.store).1 = (false, none)) :
    (CheckAuthentication (some a) ctx s).1
      = some (GoError.elemental
          (Error.mk 401 "You are not authorized to access this resource." "bahamut"
            "Unauthorized" none)) := by
  simp [CheckAuthentication, callIsAuthenticated, h, NewError, StatusUnauthorized]

/-- Witness of C3: an authenticator answering `(false, nil)`. -/
theorem CheckAuthentication_denied_witness :
    ((constAuthenticator false none).IsAuthenticated 7 world0.store).1 = (false, none)
      ∧ (CheckAuthentication (some (constAuthenticator false none)) 7 world0).1
        = some (GoError.elemental
            (Error.mk 401 "You are not authorized to access this resource." "bahamut"
              "Unauthorized" none)) :=
  ⟨rfl, CheckAuthentication_denied (constAuthenticator false none) 7 world0 rfl⟩

/-- C4: when the configured authorizer's `IsAuthorized` returns `(false, nil)`,
`CheckAuthorization` returns the error with title "Forbidden", description
"You are not allowed to access this resource.", subject "bahamut" and code
403. -/
theorem CheckAuthorization_denied {σ : Type} (errorString : Error → String)
    (a : Authorizer σ) (ctx : ContextPtr) (s : World σ)
    (h : (a.IsAuthorized ctx s.store).1 = (false, none)) :
    (CheckAuthorization errorString (some a) ctx s).1
      = some (GoError.elemental
          (Error.mk 403 "You are not allowed to access this resource." "bahamut"
            "Forbidden" none)) := by
  simp [CheckAuthorization, callIsAuthorized, h, NewError, StatusForbidden]

/-- Witness of C4: an authorizer answering `(false, nil)`. -/
theorem CheckAuthorization_denied_witness :
    ((constAuthorizer false none).IsAuthorized 7 world0.store).1 = (false, none)
      ∧ (CheckAuthorization sampleErrorString (some (constAuthorizer false none)) 7 world0).1
        = some (GoError.elemental
            (Error.mk 403 "You are not allowed to access this resource." "bahamut"
              "Forbidden" none)) :=
  ⟨rfl, CheckAuthorization_denied sampleErrorString (constAuthorizer false none) 7 world0 rfl⟩

/-- C5: with no authenticator configured (nil), `CheckAuthentication` returns
no error for every context and leaves the world as it was: the store, the
response and the log of collaborator calls are unchanged, so no capability has
been invoked. -/
theorem CheckAuthentication_nil {σ : Type} (ctx : ContextPtr) (s : World σ) :
    CheckAuthentication (none : Option (Authenticator σ)) ctx s = (none, s) := by
  rfl

/-- C6: with no authorizer configured (nil), `CheckAuthorization` returns no
error for every context and leaves the world as it was: the store, the
response and the log of collaborator calls are unchanged, so no capability has
been invoked. -/
theorem CheckAuthorization_nil {σ : Type} (errorString : Error → String) (ctx : ContextPtr)
    (s : World σ) :
    CheckAuthorization errorString (none : Option (Authorizer σ)) ctx s = (none, s) := by
  rfl

/-! ## What a rejected authorization produces -/

/-- C7, counterexample: for an authorizer answering `(false, nil)` on a fresh
world, the error `CheckAuthorization` returns is the Forbidden one with code
403, it is not the Unauthorized error (401) that `CheckAuthentication`
produces, and the response is the untouched new recorder, whose status is not
401: no Unauthorized response has been written. -/
theorem CheckAuthorization_denied_is_not_Unauthorized :
    (CheckAuthorization sampleErrorString (some (constAuthorizer false none)) 7 world0).1
        = some (GoError.elemental
            (Error.mk 403 "You are not allowed to access this resource." "bahamut"
              "Forbidden" none))
      ∧ (CheckAuthorization sampleErrorString (some (constAuthorizer false none)) 7 world0).1
        ≠ (CheckAuthentication (some (constAuthenticator false none)) 7 world0).1
      ∧ (CheckAuthorization sampleErrorString (some (constAuthorizer false none)) 7 world0).2.w
        = NewRecorder
      ∧ (CheckAuthorization sampleErrorString (some (constAuthorizer false none)) 7 world0).2.w.Code
        ≠ 401 := by
  decide

/-- C7, amended: when the configured authorizer's `IsAuthorized` returns
`(false, nil)`, `CheckAuthorization` stops the flow by returning a non-nil
error to its caller; that error is titled "Forbidden" with code 403, it is not
titled "Unauthorized" and its code is not 401; the response is left exactly as
it was. -/
theorem CheckAuthorization_denied_returns_Forbidden {σ : Type} (errorString : Error → String)
    (a : Authorizer σ) (ctx : ContextPtr) (s : World σ)
    (h : (a.IsAuthorized ctx s.store).1 = (false, none)) :
    (∃ e : Error,
        (CheckAuthorization errorString (some a) ctx s).1 = some (GoError.elemental e)
          ∧ e.Title = "Forbidden" ∧ e.Code = 403
          ∧ e.Title ≠ "Unauthorized" ∧ e.Code ≠ 401)
      ∧ (CheckAuthorization errorString (some a) ctx s).2.w = s.w := by
  refine ⟨⟨NewError "Forbidden" "You are not allowed to access this resource." "bahamut"
    StatusForbidden, ?_, rfl, rfl, by decide, by decide⟩, ?_⟩
  · simp [CheckAuthorization, callIsAuthorized, h]
  · rw [CheckAuthorization_world]
    rfl

/-- Witness of the amended C7: an authorizer answering `(false, nil)`. -/
theorem CheckAuthorization_denied_returns_Forbidden_witness :
    ((constAuthorizer false none).IsAuthorized 7 world0.store).1 = (false, none)
      ∧ ((∃ e : Error,
          (CheckAuthorization sampleErrorString (some (constAuthorizer false none)) 7 world0).1
              = some (GoError.elemental e)
            ∧ e.Title = "Forbidden" ∧ e.Code = 403
            ∧ e.Title ≠ "Unauthorized" ∧ e.Code ≠ 401)
        ∧ (CheckAuthorization sampleErrorString (some (constAuthorizer false none)) 7 world0).2.w
            = world0.w) :=
  ⟨rfl, CheckAuthorization_denied_returns_Forbidden sampleErrorString
    (constAuthorizer false none) 7 world0 rfl⟩

/-! ## Frame of the two gates -/

/-- C8: neither gate writes to the response or changes the store itself.  For
every authenticator, authorizer, context and world: the response after the
gate is the response before it; the store after the gate is the store its
capability left (the initial store when none is configured); and the only call
logged is that of the capability, with the very context the gate was given. -/
theorem gates_frame {σ : Type} (errorString : Error → String)
    (authenticator : Option (Authenticator σ)) (authorizer : Option (Authorizer σ))
    (ctx : ContextPtr) (s : World σ) :
    ((CheckAuthentication authenticator ctx s).2.w = s.w
      ∧ (CheckAuthentication authenticator ctx s).2.store
          = (match authenticator with
              | none => s.store
              | some a => (a.IsAuthenticated ctx s.store).2)
      ∧ (CheckAuthentication authenticator ctx s).2.calls
          = s.calls ++ (match authenticator with
              | none => []
              | some _ => [Call.IsAuthenticated ctx]))
    ∧ ((CheckAuthorization errorString authorizer ctx s).2.w = s.w
      ∧ (CheckAuthorization errorString authorizer ctx s).2.store
          = (match authorizer with
              | none => s.store
              | some a => (a.IsAuthorized ctx s.store).2)
      ∧ (CheckAuthorization errorString authorizer ctx s).2.calls
          = s.calls ++ (match authorizer with
              | none => []
              | some _ => [Call.IsAuthorized ctx])) := by
  constructor
  · cases authenticator with
    | none => simp [CheckAuthentication]
    | some a =>
      rw [CheckAuthentication_world]
      exact ⟨rfl, rfl, rfl⟩
  · cases authorizer with
    | none => simp [CheckAuthorization]
    | some a =>
      rw [CheckAuthorization_world]
      exact ⟨rfl, rfl, rfl⟩

/-! ## Order of the two checks -/

/-- C9: in the access gate, if `CheckAuthentication` returns an error then the
gate returns that very error, the world is the one `CheckAuthentication` left,
and the gate has logged no call of `IsAuthorized`: every such call in the log
was there before the gate ran. -/
theorem AccessGate_stops_at_authentication {σ : Type} (errorString : Error → String)
    (authenticator : Option (Authenticator σ)) (authorizer : Option (Authorizer σ))
    (ctx : ContextPtr) (s : World σ) (err : GoError)
    (h : (CheckAuthentication authenticator ctx s).1 = some err) :
    (AccessGate errorString authenticator authorizer ctx s).1 = some err
      ∧ (AccessGate errorString authenticator authorizer ctx s).2
          = (CheckAuthentication authenticator ctx s).2
      ∧ ∀ c : ContextPtr,
          Call.IsAuthorized c ∈ (AccessGate errorString authenticator authorizer ctx s).2.calls →
            Call.IsAuthorized c ∈ s.calls := by
  have hw : (AccessGate errorString authenticator authorizer ctx s).2
      = (CheckAuthentication authenticator ctx s).2 := by
    simp [AccessGate, h]
  refine ⟨by simp [AccessGate, h], hw, ?_⟩
  intro c hc
  rw [hw] at hc
  cases authenticator with
  | none => simpa [CheckAuthentication] using hc
  | some a =>
    rw [CheckAuthentication_world] at hc
    simpa [callIsAuthenticated] using hc

/-- Witness of C9: the authenticator rejects with `(false, nil)` while the
authorizer would accept. -/
theorem AccessGate_stops_at_authentication_witness :
    (CheckAuthentication (some (constAuthenticator false none)) 7 world0).1
        = some (GoError.elemental (NewError "Unauthorized"
            "You are not authorized to access this resource." "bahamut" 401))
      ∧ ((AccessGate sampleErrorString (some (constAuthenticator false none))
            (some (constAuthorizer true none)) 7 world0).1
          = some (GoError.elemental (NewError "Unauthorized"
              "You are not authorized to access this resource." "bahamut" 401))
        ∧ (AccessGate sampleErrorString (some (constAuthenticator false none))
            (some (constAuthorizer true none)) 7 world0).2
          = (CheckAuthentication (some (constAuthenticator false none)) 7 world0).2
        ∧ ∀ c : ContextPtr,
            Call.IsAuthorized c ∈ (AccessGate sampleErrorString
              (some (constAuthenticator false none))
              (some (constAuthorizer true none)) 7 world0).2.calls →
              Call.IsAuthorized c ∈ world0.calls) :=
  ⟨rfl, AccessGate_stops_at_authentication sampleErrorString
    (some (constAuthenticator false none)) (some (constAuthorizer true none)) 7 world0
    (GoError.elemental (NewError "Unauthorized"
      "You are not authorized to access this resource." "bahamut" 401)) rfl⟩

/-! ## Pagination -/

/-- Reading a header just set gives the value set. -/
theorem headerGet_headerSet_same (h : List (String × String)) (key value : String) :
    headerGet (headerSet h key value) key = value := by
  have hnone : (h.filter (fun kv => kv.1 != key)).find? (fun kv => kv.1 == key) = none := by
    rw [List.find?_eq_none]
    intro x hx
    have := (List.mem_filter.mp hx).2
    simpa using this
  simp [headerGet, headerSet, List.find?_append, hnone]

/-- Setting a header leaves the value read for any other key as it was. -/
theorem headerGet_headerSet_other (h : List (String × String)) (key other value : String)
    (hne : key ≠ other) :
    headerGet (headerSet h key value) other = headerGet h other := by
  have hfilter : (h.filter (fun kv => kv.1 != key)).find? (fun kv => kv.1 == other)
      = h.find? (fun kv => kv.1 == other) := by
    induction h with
    | nil => rfl
    | cons x xs ih =>
      by_cases hx : x.1 = key
      · have hxo : ¬ x.1 = other := fun h' => hne (hx ▸ h')
        simp [List.filter_cons, List.find?_cons, hx, hxo, hne, ih]
      · by_cases hxo : x.1 = other
        · have hok : ¬ other = key := fun h' => hne h'.symm
          simp [List.filter_cons, List.find?_cons, hx, hxo, hok]
        · simp [List.filter_cons, List.find?_cons, hx, hxo, ih]
  unfold headerGet headerSet
  rw [List.find?_append, hfilter]
  cases hf : h.find? (fun kv => kv.1 == other) with
  | some kv => simp
  | none => simp [List.find?_cons, hne]

/-- The integer quotient used by `computePagination` is the ceiling of the
exact quotient. -/
theorem ceilDiv_eq_ceil (total perPage : Int) (hp : 0 < perPage) :
    (total + perPage - 1) / perPage = ⌈(total : ℚ) / (perPage : ℚ)⌉ := by
  symm
  rw [Int.ceil_eq_iff]
  have hq : (0 : ℚ) < (perPage : ℚ) := by exact_mod_cast hp
  have h1 := Int.emod_add_ediv (total + perPage - 1) perPage
  have h2 := Int.emod_nonneg (total + perPage - 1) (ne_of_gt hp)
  have h3 := Int.emod_lt_of_pos (total + perPage - 1) hp
  set q := (total + perPage - 1) / perPage with hqd
  set r := (total + perPage - 1) % perPage with hrd
  have e : (total : ℚ) = perPage * q + r - perPage + 1 := by
    have : (total : Int) = perPage * q + r - perPage + 1 := by linarith
    exact_mod_cast this
  have hr0 : (0 : ℚ) ≤ r := by exact_mod_cast h2
  have hr1 : (r : ℚ) ≤ perPage - 1 := by
    have : r ≤ perPage - 1 := by omega
    exact_mod_cast this
  constructor
  · rw [lt_div_iff₀ hq]
    rw [e]; nlinarith
  · rw [div_le_iff₀ hq]
    rw [e]; nlinarith

/-- The last page for a positive total and page size: the ceiling, at least 1. -/
theorem computePagination_last (total currentPage perPage : Int) (ht : 0 < total)
    (hp : 0 < perPage) :
    (computePagination total currentPage perPage).last = (total + perPage - 1) / perPage
      ∧ 1 ≤ (total + perPage - 1) / perPage := by
  have hge : 1 ≤ (total + perPage - 1) / perPage := by
    rw [Int.le_ediv_iff_mul_le hp]
    omega
  have hc : ¬ (perPage ≤ 0 ∨ total ≤ 0) := by omega
  refine ⟨?_, hge⟩
  simp only [computePagination, if_neg hc]
  exact max_eq_right hge

/-- The four pagination headers read back the calculator's values, as decimal
strings. -/
theorem setPaginationHeaders_get (w : ResponseRecorder) (total currentPage perPage : Int) :
    headerGet (setPaginationHeaders w total currentPage perPage).HeaderMap "X-Page-First"
        = toString (computePagination total currentPage perPage).first
      ∧ headerGet (setPaginationHeaders w total currentPage perPage).HeaderMap "X-Page-Prev"
        = toString (computePagination total currentPage perPage).prev
      ∧ headerGet (setPaginationHeaders w total currentPage perPage).HeaderMap "X-Page-Next"
        = toString (computePagination total currentPage perPage).next
      ∧ headerGet (setPaginationHeaders w total currentPage perPage).HeaderMap "X-Page-Last"
        = toString (computePagination total currentPage perPage).last := by
  simp only [setPaginationHeaders]
  refine ⟨?_, ?_, ?_, ?_⟩
  · rw [headerGet_headerSet_other _ _ _ _ (by decide),
      headerGet_headerSet_other _ _ _ _ (by decide),
      headerGet_headerSet_other _ _ _ _ (by decide), headerGet_headerSet_same]
  · rw [headerGet_headerSet_other _ _ _ _ (by decide),
      headerGet_headerSet_other _ _ _ _ (by decide), headerGet_headerSet_same]
  · rw [headerGet_headerSet_other _ _ _ _ (by decide), headerGet_headerSet_same]
  · rw [headerGet_headerSet_same]

/-- The calculator's values for a positive total, a positive page size and a
current page between 1 and the last page. -/
theorem computePagination_bounds (total perPage currentPage : Int)
    (ht : 0 < total) (hp : 0 < perPage) (h1 : 1 ≤ currentPage)
    (h2 : currentPage ≤ (computePagination total currentPage perPage).last) :
    (computePagination total currentPage perPage).first = 1
      ∧ (computePagination total currentPage perPage).last = ⌈(total : ℚ) / (perPage : ℚ)⌉
      ∧ (computePagination total currentPage perPage).first
          ≤ (computePagination total currentPage perPage).prev
      ∧ (computePagination total currentPage perPage).prev ≤ currentPage
      ∧ currentPage ≤ (computePagination total currentPage perPage).next
      ∧ (computePagination total currentPage perPage).next
          ≤ (computePagination total currentPage perPage).last := by
  obtain ⟨hl, hge⟩ := computePagination_last total currentPage perPage ht hp
  have hc : ¬ (perPage ≤ 0 ∨ total ≤ 0) := by omega
  rw [hl] at h2
  have hmax : max 1 ((total + perPage - 1) / perPage) = (total + perPage - 1) / perPage :=
    max_eq_right hge
  simp only [computePagination, if_neg hc, hmax]
  refine ⟨trivial, ceilDiv_eq_ceil total perPage hp, le_max_left _ _, ?_, ?_, min_le_left _ _⟩
  · exact max_le h1 (by omega)
  · exact le_min h2 (by omega)

/-! ## When the gates pass -/

/-- C15: `CheckAuthentication` returns no error if and only if no authenticator
is configured or `IsAuthenticated` returns `(true, nil)`; it returns a non-nil
error exactly in every other case. -/
theorem CheckAuthentication_passes_iff {σ : Type} (authenticator : Option (Authenticator σ))
    (ctx : ContextPtr) (s : World σ) :
    ((CheckAuthentication authenticator ctx s).1 = none
        ↔ (authenticator = none
            ∨ ∃ a, authenticator = some a ∧ (a.IsAuthenticated ctx s.store).1 = (true, none)))
      ∧ ((∃ err, (CheckAuthentication authenticator ctx s).1 = some err)
        ↔ ¬ (authenticator = none
            ∨ ∃ a, authenticator = some a ∧ (a.IsAuthenticated ctx s.store).1 = (true, none))) := by
  have key : (CheckAuthentication authenticator ctx s).1 = none
      ↔ (authenticator = none
          ∨ ∃ a, authenticator = some a ∧ (a.IsAuthenticated ctx s.store).1 = (true, none)) := by
    cases authenticator with
    | none => simp [CheckAuthentication]
    | some a =>
      rcases hr : (a.IsAuthenticated ctx s.store).1 with ⟨ok, err⟩
      cases err with
      | some e => simp [CheckAuthentication, callIsAuthenticated, hr]
      | none => cases ok <;> simp [CheckAuthentication, callIsAuthenticated, hr]
  refine ⟨key, ?_⟩
  rw [← key]
  cases (CheckAuthentication authenticator ctx s).1 <;> simp

/-- C16: `CheckAuthorization` returns no error if and only if no authorizer is
configured or `IsAuthorized` returns `(true, nil)`; it returns a non-nil error
exactly in every other case. -/
theorem CheckAuthorization_passes_iff {σ : Type} (errorString : Error → String)
    (authorizer : Option (Authorizer σ)) (ctx : ContextPtr) (s : World σ) :
    ((CheckAuthorization errorString authorizer ctx s).1 = none
        ↔ (authorizer = none
            ∨ ∃ a, authorizer = some a ∧ (a.IsAuthorized ctx s.store).1 = (true, none)))
      ∧ ((∃ err, (CheckAuthorization errorString authorizer ctx s).1 = some err)
        ↔ ¬ (authorizer = none
            ∨ ∃ a, authorizer = some a ∧ (a.IsAuthorized ctx s.store).1 = (true, none))) := by
  have key : (CheckAuthorization errorString authorizer ctx s).1 = none
      ↔ (authorizer = none
          ∨ ∃ a, authorizer = some a ∧ (a.IsAuthorized ctx s.store).1 = (true, none)) := by
    cases authorizer with
    | none => simp [CheckAuthorization]
    | some a =>
      rcases hr : (a.IsAuthorized ctx s.store).1 with ⟨ok, err⟩
      cases err with
      | some e => simp [CheckAuthorization, callIsAuthorized, hr]
      | none => cases ok <;> simp [CheckAuthorization, callIsAuthorized, hr]
  refine ⟨key, ?_⟩
  rw [← key]
  cases (CheckAuthorization errorString authorizer ctx s).1 <;> simp

/-- C17: every error `CheckAuthorization` returns is an `elemental.Error` with
subject "bahamut" and code 403 or 500; when the authorizer's own error carries
a code, the returned code equals it only if that code is 500. -/
theorem CheckAuthorization_error_codes {σ : Type} (errorString : Error → String)
    (authorizer : Option (Authorizer σ)) (ctx : ContextPtr) (s : World σ) (err : GoError)
    (h : (CheckAuthorization errorString authorizer ctx s).1 = some err) :
    ∃ e : Error, err = GoError.elemental e ∧ e.Subject = "bahamut"
      ∧ (e.Code = 403 ∨ e.Code = 500)
      ∧ ∀ (a : Authorizer σ) (own : Error), authorizer = some a →
          (a.IsAuthorized ctx s.store).1.2 = some (GoError.elemental own) →
          e.Code = own.Code → own.Code = 500 := by
  cases authorizer with
  | none => simp [CheckAuthorization] at h
  | some a =>
    rcases hr : (a.IsAuthorized ctx s.store).1 with ⟨ok, res⟩
    cases res with
    | some e =>
      simp only [CheckAuthorization, callIsAuthorized, hr, Option.some.injEq] at h
      refine ⟨_, h.symm, rfl, Or.inr rfl, ?_⟩
      intro a2 own _ _ hc
      exact hc.symm.trans rfl
    | none =>
      cases ok with
      | true => simp [CheckAuthorization, callIsAuthorized, hr] at h
      | false =>
        simp only [CheckAuthorization, callIsAuthorized, hr, Bool.not_false, if_true,
          Option.some.injEq] at h
        refine ⟨_, h.symm, rfl, Or.inl rfl, ?_⟩
        intro a2 own ha hown
        cases ha
        rw [hr] at hown
        cases hown

/-- Witness of C17: an authorizer failing with a 503 error; the returned error
has code 500. -/
theorem CheckAuthorization_error_codes_witness :
    (CheckAuthorization sampleErrorString
        (some (constAuthorizer true (some upstreamError))) 7 world0).1
        = some (GoError.elemental (NewError "Internal Server Error"
            (GoError.Error sampleErrorString upstreamError) "bahamut" 500))
      ∧ ∃ e : Error,
          GoError.elemental (NewError "Internal Server Error"
              (GoError.Error sampleErrorString upstreamError) "bahamut" 500)
            = GoError.elemental e
          ∧ e.Subject = "bahamut" ∧ (e.Code = 403 ∨ e.Code = 500)
          ∧ ∀ (a : Authorizer Nat) (own : Error),
              some (constAuthorizer true (some upstreamError)) = some a →
              (a.IsAuthorized 7 world0.store).1.2 = some (GoError.elemental own) →
              e.Code = own.Code → own.Code = 500 :=
  ⟨rfl, CheckAuthorization_error_codes sampleErrorString
    (some (constAuthorizer true (some upstreamError))) 7 world0
    (GoError.elemental (NewError "Internal Server Error"
      (GoError.Error sampleErrorString upstreamError) "bahamut" 500)) rfl⟩

/-! ## One call per gate -/

/-- C18: a gate with a configured capability invokes it exactly once, whatever
it answers: the log grows by the single call with the given context, the store
is the one a single run of the method leaves, and the returned value is a
function of that run's answer alone. -/
theorem gates_invoke_once {σ : Type} (errorString : Error → String) (a : Authenticator σ)
    (z : Authorizer σ) (ctx : ContextPtr) (s : World σ) :
    ((CheckAuthentication (some a) ctx s).2.calls = s.calls ++ [Call.IsAuthenticated ctx]
      ∧ List.count (Call.IsAuthenticated ctx) (CheckAuthentication (some a) ctx s).2.calls
          = List.count (Call.IsAuthenticated ctx) s.calls + 1
      ∧ (CheckAuthentication (some a) ctx s).2.store = (a.IsAuthenticated ctx s.store).2
      ∧ (CheckAuthentication (some a) ctx s).1
          = (match (a.IsAuthenticated ctx s.store).1 with
              | (_, some err) => some err
              | (false, none) => some (GoError.elemental
                  (Error.mk 401 "You are not authorized to access this resource." "bahamut"
                    "Unauthorized" none))
              | (true, none) => none))
    ∧ ((CheckAuthorization errorString (some z) ctx s).2.calls
          = s.calls ++ [Call.IsAuthorized ctx]
      ∧ List.count (Call.IsAuthorized ctx) (CheckAuthorization errorString (some z) ctx s).2.calls
          = List.count (Call.IsAuthorized ctx) s.calls + 1
      ∧ (CheckAuthorization errorString (some z) ctx s).2.store = (z.IsAuthorized ctx s.store).2
      ∧ (CheckAuthorization errorString (some z) ctx s).1
          = (match (z.IsAuthorized ctx s.store).1 with
              | (_, some err) => some (GoError.elemental
                  (Error.mk 500 (GoError.Error errorString err) "bahamut"
                    "Internal Server Error" none))
              | (false, none) => some (GoError.elemental
                  (Error.mk 403 "You are not allowed to access this resource." "bahamut"
                    "Forbidden" none))
              | (true, none) => none)) := by
  constructor
  · refine ⟨?_, ?_, ?_, ?_⟩
    · rw [CheckAuthentication_world]; rfl
    · rw [CheckAuthentication_world]; simp [callIsAuthenticated]
    · rw [CheckAuthentication_world]; rfl
    · rcases hr : (a.IsAuthenticated ctx s.store).1 with ⟨ok, res⟩
      cases res with
      | some e => simp [CheckAuthentication, callIsAuthenticated, hr]
      | none =>
        cases ok <;>
          simp [CheckAuthentication, callIsAuthenticated, hr, NewError, StatusUnauthorized]
  · refine ⟨?_, ?_, ?_, ?_⟩
    · rw [CheckAuthorization_world]; rfl
    · rw [CheckAuthorization_world]; simp [callIsAuthorized]
    · rw [CheckAuthorization_world]; rfl
    · rcases hr : (z.IsAuthorized ctx s.store).1 with ⟨ok, res⟩
      cases res with
      | some e =>
        simp [CheckAuthorization, callIsAuthorized, hr, NewError, StatusInternalServerError]
      | none =>
        cases ok <;>
          simp [CheckAuthorization, callIsAuthorized, hr, NewError, StatusForbidden]

/-! ## Lemmas on the response writer -/

/-- Composing the common and the pagination headers leaves the body as it
was. -/
theorem headers_Body (w : ResponseRecorder) (origin : String) (total page perPage : Int) :
    (setPaginationHeaders (setCommonHeader w origin) total page perPage).Body = w.Body := by
  simp only [setPaginationHeaders, setCommonHeader]

/-- The composed headers leave the body as it was. -/
theorem composeHeaders_Body {π : Type} (w : ResponseRecorder) (c : Context π) :
    (composeHeaders w c).Body = w.Body :=
  headers_Body w c.Origin c.Count.Total c.Count.Page c.Count.PerPage

/-- The body a failed encoding leaves: status 500, nothing appended. -/
theorem writeBody_fail {π : Type} (marshal : π → EncodeResult) (w : ResponseRecorder)
    (status : Int) (data : Option π) (written : String)
    (h : encodeOutput marshal data = EncodeResult.fail written) :
    writeBody marshal w status data = ResponseRecorder.mk 500 w.HeaderMap w.Body := by
  simp [writeBody, h, StatusInternalServerError]

/-- The body a successful encoding leaves: the status asked for, and the JSON
text with its newline appended. -/
theorem writeBody_ok {π : Type} (marshal : π → EncodeResult) (w : ResponseRecorder)
    (status : Int) (data : Option π) (json : String)
    (h : encodeOutput marshal data = EncodeResult.ok json) :
    writeBody marshal w status data
      = ResponseRecorder.mk status w.HeaderMap (w.Body ++ json ++ "\n") := by
  simp [writeBody, h]

/-- Writing status and body leaves the headers as they were. -/
theorem writeBody_HeaderMap {π : Type} (marshal : π → EncodeResult) (w : ResponseRecorder)
    (status : Int) (data : Option π) :
    (writeBody marshal w status data).HeaderMap = w.HeaderMap := by
  unfold writeBody
  split <;> rfl

/-- The response without error when the body is omitted. -/
theorem writeHTTPResponse_omitted {π : Type} (headFirst : Bool) (jsonString : String → String)
    (marshal : π → EncodeResult) (w : ResponseRecorder) (c : Context π)
    (hErr : c.Error = none) (h : successStatus headFirst c = 204 ∨ c.Method = "HEAD") :
    writeHTTPResponse headFirst jsonString marshal w c
      = ResponseRecorder.mk (successStatus headFirst c) (composeHeaders w c).HeaderMap w.Body := by
  simp only [writeHTTPResponse, hErr, if_pos h, composeHeaders_Body]

/-- The response without error when the body is written. -/
theorem writeHTTPResponse_written {π : Type} (headFirst : Bool) (jsonString : String → String)
    (marshal : π → EncodeResult) (w : ResponseRecorder) (c : Context π)
    (hErr : c.Error = none) (h : ¬ (successStatus headFirst c = 204 ∨ c.Method = "HEAD")) :
    writeHTTPResponse headFirst jsonString marshal w c
      = writeBody marshal (composeHeaders w c) (successStatus headFirst c) c.OutputData := by
  simp only [writeHTTPResponse, hErr, if_neg h]

/-- The headers of a response without error are the composed ones. -/
theorem writeHTTPResponse_HeaderMap {π : Type} (headFirst : Bool)
    (jsonString : String → String) (marshal : π → EncodeResult) (w : ResponseRecorder)
    (c : Context π) (hErr : c.Error = none) :
    (writeHTTPResponse headFirst jsonString marshal w c).HeaderMap
      = (composeHeaders w c).HeaderMap := by
  by_cases h : successStatus headFirst c = 204 ∨ c.Method = "HEAD"
  · rw [writeHTTPResponse_omitted headFirst jsonString marshal w c hErr h]
  · rw [writeHTTPResponse_written headFirst jsonString marshal w c hErr h,
      writeBody_HeaderMap]

/-- The common headers leave the value read for any key that is none of theirs
as it was. -/
theorem setCommonHeader_get_other (w : ResponseRecorder) (origin key : String)
    (h1 : "Content-Type" ≠ key) (h2 : "Access-Control-Allow-Origin" ≠ key)
    (h3 : "Access-Control-Expose-Headers" ≠ key) (h4 : "Access-Control-Allow-Methods" ≠ key)
    (h5 : "Access-Control-Allow-Headers" ≠ key)
    (h6 : "Access-Control-Allow-Credentials" ≠ key) :
    headerGet (setCommonHeader w origin).HeaderMap key = headerGet w.HeaderMap key := by
  simp only [setCommonHeader]
  rw [headerGet_headerSet_other _ _ _ _ h6, headerGet_headerSet_other _ _ _ _ h5,
    headerGet_headerSet_other _ _ _ _ h4, headerGet_headerSet_other _ _ _ _ h3,
    headerGet_headerSet_other _ _ _ _ h2, headerGet_headerSet_other _ _ _ _ h1]

/-- The status of a Create request with a method other than HEAD, in either
order of the rows. -/
theorem successStatus_create {π : Type} (headFirst : Bool) (c : Context π)
    (hC : c.Operation = Operation.Create) (hM : c.Method ≠ "HEAD") :
    successStatus headFirst c = 201 := by
  cases headFirst <;> simp [successStatus, hC, hM]

/-- The status of a request that is not a Create and is an Info or has method
HEAD, in either order of the rows. -/
theorem successStatus_info_head {π : Type} (headFirst : Bool) (c : Context π)
    (hC : c.Operation ≠ Operation.Create)
    (h : c.Operation = Operation.Info ∨ c.Method = "HEAD") :
    successStatus headFirst c = 204 := by
  cases headFirst <;> simp [successStatus, hC, h]

/-- The status of a RetrieveMany request with method GET, in either order of
the rows. -/
theorem successStatus_retrieveMany {π : Type} (headFirst : Bool) (c : Context π)
    (hR : c.Operation = Operation.RetrieveMany) (hM : c.Method = "GET") :
    successStatus headFirst c = 200 := by
  cases headFirst <;> simp [successStatus, hR, hM]

/-- The status of a request with output data that is not an Info and has a
method other than HEAD is not 204, in either order of the rows. -/
theorem successStatus_with_body {π : Type} (headFirst : Bool) (c : Context π) (d : π)
    (hI : c.Operation ≠ Operation.Info) (hM : c.Method ≠ "HEAD")
    (hData : c.OutputData = some d) :
    successStatus headFirst c ≠ 204 := by
  by_cases hC : c.Operation = Operation.Create
  · rw [successStatus_create headFirst c hC hM]
    decide
  · cases headFirst <;> simp [successStatus, hC, hI, hM, hData]

/-- The response of a context without error that is not an Info, has a method
other than HEAD, and whose output data the encoder rejects. -/
theorem writeHTTPResponse_fail {π : Type} (headFirst : Bool) (jsonString : String → String)
    (marshal : π → EncodeResult) (w : ResponseRecorder) (c : Context π) (d : π)
    (written : String) (hErr : c.Error = none) (hI : c.Operation ≠ Operation.Info)
    (hM : c.Method ≠ "HEAD") (hData : c.OutputData = some d)
    (hFail : marshal d = EncodeResult.fail written) :
    writeHTTPResponse headFirst jsonString marshal w c
      = ResponseRecorder.mk 500 (composeHeaders w c).HeaderMap w.Body := by
  have hEnc : encodeOutput marshal c.OutputData = EncodeResult.fail written := by
    rw [hData]
    exact hFail
  have hS := successStatus_with_body headFirst c d hI hM hData
  have hno : ¬ (successStatus headFirst c = 204 ∨ c.Method = "HEAD") :=
    fun h => h.elim hS hM
  rw [writeHTTPResponse_written headFirst jsonString marshal w c hErr hno,
    writeBody_fail marshal _ _ _ written hEnc, composeHeaders_Body]

/-! ## Pagination headers of a response -/

/-- C10: for every context whose count has total > 0, perPage > 0 and a current
page with 1 ≤ currentPage ≤ last, the values `writeHTTPResponse` writes as
`X-Page-First`, `X-Page-Prev`, `X-Page-Next`, `X-Page-Last` (decimal strings;
with an error set the writer hands over to the error envelope and leaves these
four headers as they were) satisfy first = 1, last = ceil(total / perPage) and
first ≤ prev ≤ currentPage ≤ next ≤ last; for total = 40, perPage = 10,
currentPage = 2, in the two responses of the test, the headers read "1", "1",
"3", "4". -/
theorem writeHTTPResponse_pagination {π : Type} (headFirst : Bool)
    (jsonString : String → String) (marshal : π → EncodeResult) (w : ResponseRecorder)
    (c : Context π) (ht : 0 < c.Count.Total) (hp : 0 < c.Count.PerPage)
    (h1 : 1 ≤ c.Count.Page)
    (h2 : c.Count.Page ≤ (computePagination c.Count.Total c.Count.Page c.Count.PerPage).last) :
    (c.Error = none →
        headerGet (writeHTTPResponse headFirst jsonString marshal w c).HeaderMap "X-Page-First"
            = toString (computePagination c.Count.Total c.Count.Page c.Count.PerPage).first
          ∧ headerGet (writeHTTPResponse headFirst jsonString marshal w c).HeaderMap "X-Page-Prev"
            = toString (computePagination c.Count.Total c.Count.Page c.Count.PerPage).prev
          ∧ headerGet (writeHTTPResponse headFirst jsonString marshal w c).HeaderMap "X-Page-Next"
            = toString (computePagination c.Count.Total c.Count.Page c.Count.PerPage).next
          ∧ headerGet (writeHTTPResponse headFirst jsonString marshal w c).HeaderMap "X-Page-Last"
            = toString (computePagination c.Count.Total c.Count.Page c.Count.PerPage).last)
      ∧ (∀ err, c.Error = some err →
        headerGet (writeHTTPResponse headFirst jsonString marshal w c).HeaderMap "X-Page-First"
            = headerGet w.HeaderMap "X-Page-First"
          ∧ headerGet (writeHTTPResponse headFirst jsonString marshal w c).HeaderMap "X-Page-Prev"
            = headerGet w.HeaderMap "X-Page-Prev"
          ∧ headerGet (writeHTTPResponse headFirst jsonString marshal w c).HeaderMap "X-Page-Next"
            = headerGet w.HeaderMap "X-Page-Next"
          ∧ headerGet (writeHTTPResponse headFirst jsonString marshal w c).HeaderMap "X-Page-Last"
            = headerGet w.HeaderMap "X-Page-Last")
      ∧ ((computePagination c.Count.Total c.Count.Page c.Count.PerPage).first = 1
        ∧ (computePagination c.Count.Total c.Count.Page c.Count.PerPage).last
            = ⌈(c.Count.Total : ℚ) / (c.Count.PerPage : ℚ)⌉
        ∧ (computePagination c.Count.Total c.Count.Page c.Count.PerPage).first
            ≤ (computePagination c.Count.Total c.Count.Page c.Count.PerPage).prev
        ∧ (computePagination c.Count.Total c.Count.Page c.Count.PerPage).prev ≤ c.Count.Page
        ∧ c.Count.Page ≤ (computePagination c.Count.Total c.Count.Page c.Count.PerPage).next
        ∧ (computePagination c.Count.Total c.Count.Page c.Count.PerPage).next
            ≤ (computePagination c.Count.Total c.Count.Page c.Count.PerPage).last)
      ∧ (headerGet (writeHTTPResponse headFirst sampleJSONString sampleMarshal NewRecorder
            (sampleContext Operation.RetrieveMany "GET"
              (some (SamplePayload.entities ["e1", "e2"])) none)).HeaderMap "X-Page-First" = "1"
        ∧ headerGet (writeHTTPResponse headFirst sampleJSONString sampleMarshal NewRecorder
            (sampleContext Operation.RetrieveMany "GET"
              (some (SamplePayload.entities ["e1", "e2"])) none)).HeaderMap "X-Page-Prev" = "1"
        ∧ headerGet (writeHTTPResponse headFirst sampleJSONString sampleMarshal NewRecorder
            (sampleContext Operation.RetrieveMany "GET"
              (some (SamplePayload.entities ["e1", "e2"])) none)).HeaderMap "X-Page-Next" = "3"
        ∧ headerGet (writeHTTPResponse headFirst sampleJSONString sampleMarshal NewRecorder
            (sampleContext Operation.RetrieveMany "GET"
              (some (SamplePayload.entities ["e1", "e2"])) none)).HeaderMap "X-Page-Last" = "4")
      ∧ (headerGet (writeHTTPResponse headFirst sampleJSONString sampleMarshal NewRecorder
            (sampleContext Operation.Info "HEAD" none none)).HeaderMap "X-Page-First" = "1"
        ∧ headerGet (writeHTTPResponse headFirst sampleJSONString sampleMarshal NewRecorder
            (sampleContext Operation.Info "HEAD" none none)).HeaderMap "X-Page-Prev" = "1"
        ∧ headerGet (writeHTTPResponse headFirst sampleJSONString sampleMarshal NewRecorder
            (sampleContext Operation.Info "HEAD" none none)).HeaderMap "X-Page-Next" = "3"
        ∧ headerGet (writeHTTPResponse headFirst sampleJSONString sampleMarshal NewRecorder
            (sampleContext Operation.Info "HEAD" none none)).HeaderMap "X-Page-Last" = "4") := by
  refine ⟨?_, ?_, computePagination_bounds c.Count.Total c.Count.PerPage c.Count.Page ht hp h1 h2,
    ?_, ?_⟩
  · intro hErr
    rw [writeHTTPResponse_HeaderMap headFirst jsonString marshal w c hErr]
    exact setPaginationHeaders_get (setCommonHeader w c.Origin) c.Count.Total c.Count.Page
      c.Count.PerPage
  · intro err hErr
    have hH : (writeHTTPResponse headFirst jsonString marshal w c).HeaderMap
        = (setCommonHeader w c.Origin).HeaderMap := by
      simp only [writeHTTPResponse, hErr, writeHTTPError]
    rw [hH]
    exact ⟨setCommonHeader_get_other w c.Origin _ (by decide) (by decide) (by decide)
        (by decide) (by decide) (by decide),
      setCommonHeader_get_other w c.Origin _ (by decide) (by decide) (by decide)
        (by decide) (by decide) (by decide),
      setCommonHeader_get_other w c.Origin _ (by decide) (by decide) (by decide)
        (by decide) (by decide) (by decide),
      setCommonHeader_get_other w c.Origin _ (by decide) (by decide) (by decide)
        (by decide) (by decide) (by decide)⟩
  · cases headFirst <;> decide
  · cases headFirst <;> decide

/-- Witness of C10: the RetrieveMany context of the test (total 40, page 2, 10
per page, no error) on a new recorder. -/
theorem writeHTTPResponse_pagination_witness :
    (0 < (sampleContext Operation.RetrieveMany "GET"
          (some (SamplePayload.entities ["e1", "e2"])) none).Count.Total
        ∧ 0 < (sampleContext Operation.RetrieveMany "GET"
          (some (SamplePayload.entities ["e1", "e2"])) none).Count.PerPage
        ∧ 1 ≤ (sampleContext Operation.RetrieveMany "GET"
          (some (SamplePayload.entities ["e1", "e2"])) none).Count.Page)
      ∧ headerGet (writeHTTPResponse false sampleJSONString sampleMarshal NewRecorder
          (sampleContext Operation.RetrieveMany "GET"
            (some (SamplePayload.entities ["e1", "e2"])) none)).HeaderMap "X-Page-Next" = "3"
      ∧ headerGet (writeHTTPResponse false sampleJSONString sampleMarshal NewRecorder
          (sampleContext Operation.RetrieveMany "GET"
            (some (SamplePayload.entities ["e1", "e2"])) none)).HeaderMap "X-Page-Last"
          = toString (computePagination 40 2 10).last :=
  ⟨by decide,
    (writeHTTPResponse_pagination false sampleJSONString sampleMarshal NewRecorder
      (sampleContext Operation.RetrieveMany "GET"
        (some (SamplePayload.entities ["e1", "e2"])) none)
      (by decide) (by decide) (by decide) (by decide)).2.2.2.1.2.2.1,
    ((writeHTTPResponse_pagination false sampleJSONString sampleMarshal NewRecorder
      (sampleContext Operation.RetrieveMany "GET"
        (some (SamplePayload.entities ["e1", "e2"])) none)
      (by decide) (by decide) (by decide) (by decide)).1 rfl).2.2.2⟩

/-! ## Status and body of a response -/

/-- C11, counterexample: three contexts with no error set, each in both orders
of the rows for Create and for method HEAD.  A RetrieveMany context with method
GET whose output data the encoder rejects (the input of the test) is answered
500, not 200.  A Create context with method HEAD cannot be answered both 201
and 204: it is answered 201 when the Create row is first and 204 when the HEAD
row is first.  A Create context with method POST whose output data the encoder
rejects is answered 500, not 201. -/
theorem writeHTTPResponse_status_overlaps :
    ((writeHTTPResponse false sampleJSONString sampleMarshal NewRecorder
          (sampleContext Operation.RetrieveMany "GET" (some SamplePayload.unmarshalable)
            none)).Code = 500
      ∧ (writeHTTPResponse true sampleJSONString sampleMarshal NewRecorder
          (sampleContext Operation.RetrieveMany "GET" (some SamplePayload.unmarshalable)
            none)).Code = 500
      ∧ (500 : Int) ≠ 200)
    ∧ ((writeHTTPResponse false sampleJSONString sampleMarshal NewRecorder
          (sampleContext Operation.Create "HEAD" none none)).Code = 201
      ∧ (writeHTTPResponse false sampleJSONString sampleMarshal NewRecorder
          (sampleContext Operation.Create "HEAD" none none)).Code ≠ 204
      ∧ (writeHTTPResponse true sampleJSONString sampleMarshal NewRecorder
          (sampleContext Operation.Create "HEAD" none none)).Code = 204
      ∧ (writeHTTPResponse true sampleJSONString sampleMarshal NewRecorder
          (sampleContext Operation.Create "HEAD" none none)).Code ≠ 201)
    ∧ ((writeHTTPResponse false sampleJSONString sampleMarshal NewRecorder
          (sampleContext Operation.Create "POST" (some SamplePayload.unmarshalable)
            none)).Code = 500
      ∧ (writeHTTPResponse true sampleJSONString sampleMarshal NewRecorder
          (sampleContext Operation.Create "POST" (some SamplePayload.unmarshalable)
            none)).Code = 500
      ∧ (500 : Int) ≠ 201) := by
  decide

/-- C11, amended: for every context with no error set, in either order of the
rows for Create and for method HEAD: a Create context with a method other than
HEAD whose output data can be serialized is answered 201; a context that is not
a Create and whose operation is Info or whose method is HEAD is answered 204
with nothing written to the body, whatever the output data; a RetrieveMany
context with method GET whose output data can be serialized is answered 200
with the JSON text, ended by a newline, as body. -/
theorem writeHTTPResponse_status {π : Type} (headFirst : Bool) (jsonString : String → String)
    (marshal : π → EncodeResult) (w : ResponseRecorder) (c : Context π)
    (hErr : c.Error = none) :
    (c.Operation = Operation.Create → c.Method ≠ "HEAD" →
        ∀ json, encodeOutput marshal c.OutputData = EncodeResult.ok json →
          (writeHTTPResponse headFirst jsonString marshal w c).Code = 201)
      ∧ (c.Operation ≠ Operation.Create →
        (c.Operation = Operation.Info ∨ c.Method = "HEAD") →
          (writeHTTPResponse headFirst jsonString marshal w c).Code = 204
            ∧ (writeHTTPResponse headFirst jsonString marshal w c).Body = w.Body)
      ∧ (c.Operation = Operation.RetrieveMany → c.Method = "GET" →
        ∀ json, encodeOutput marshal c.OutputData = EncodeResult.ok json →
          (writeHTTPResponse headFirst jsonString marshal w c).Code = 200
            ∧ (writeHTTPResponse headFirst jsonString marshal w c).Body
              = w.Body ++ json ++ "\n") := by
  refine ⟨?_, ?_, ?_⟩
  · intro hC hM json hj
    have hS := successStatus_create headFirst c hC hM
    have hno : ¬ (successStatus headFirst c = 204 ∨ c.Method = "HEAD") := by
      rw [hS]
      exact fun h => h.elim (by decide) hM
    rw [writeHTTPResponse_written headFirst jsonString marshal w c hErr hno,
      writeBody_ok marshal _ _ _ json hj, hS]
  · intro hC hIH
    have hS := successStatus_info_head headFirst c hC hIH
    rw [writeHTTPResponse_omitted headFirst jsonString marshal w c hErr (Or.inl hS), hS]
    exact ⟨rfl, rfl⟩
  · intro hR hM json hj
    have hS := successStatus_retrieveMany headFirst c hR hM
    have hno : ¬ (successStatus headFirst c = 204 ∨ c.Method = "HEAD") := by
      rw [hS, hM]
      decide
    rw [writeHTTPResponse_written headFirst jsonString marshal w c hErr hno,
      writeBody_ok marshal _ _ _ json hj, hS, composeHeaders_Body]
    exact ⟨rfl, rfl⟩

/-- Witness of the amended C11: the three responses of the test, on a new
recorder. -/
theorem writeHTTPResponse_status_witness :
    (writeHTTPResponse false sampleJSONString sampleMarshal NewRecorder
        (sampleContext Operation.Create "POST" none none)).Code = 201
      ∧ ((writeHTTPResponse false sampleJSONString sampleMarshal NewRecorder
          (sampleContext Operation.Info "HEAD" none none)).Code = 204
        ∧ (writeHTTPResponse false sampleJSONString sampleMarshal NewRecorder
          (sampleContext Operation.Info "HEAD" none none)).Body = NewRecorder.Body)
      ∧ ((writeHTTPResponse false sampleJSONString sampleMarshal NewRecorder
          (sampleContext Operation.RetrieveMany "GET"
            (some (SamplePayload.entities ["e1", "e2"])) none)).Code = 200
        ∧ (writeHTTPResponse false sampleJSONString sampleMarshal NewRecorder
          (sampleContext Operation.RetrieveMany "GET"
            (some (SamplePayload.entities ["e1", "e2"])) none)).Body
          = NewRecorder.Body ++ "[\x7b\"name\":\"e1\"\x7d,\x7b\"name\":\"e2\"\x7d]" ++ "\n") :=
  ⟨(writeHTTPResponse_status false sampleJSONString sampleMarshal NewRecorder
      (sampleContext Operation.Create "POST" none none) rfl).1 rfl (by decide) "null" rfl,
    (writeHTTPResponse_status false sampleJSONString sampleMarshal NewRecorder
      (sampleContext Operation.Info "HEAD" none none) rfl).2.1 (by decide) (Or.inl rfl),
    (writeHTTPResponse_status false sampleJSONString sampleMarshal NewRecorder
      (sampleContext Operation.RetrieveMany "GET"
        (some (SamplePayload.entities ["e1", "e2"])) none) rfl).2.2 rfl rfl
      "[\x7b\"name\":\"e1\"\x7d,\x7b\"name\":\"e2\"\x7d]" (by decide)⟩

/-! ## A payload that cannot be serialized -/

/-- C14, counterexample: three contexts whose output data the encoder rejects,
each in both orders of the rows for Create and for method HEAD.  With an error
of code 404 set, the response has the status of that error, 404; an Info
context with method GET is answered 204; a Retrieve context with method HEAD
is answered 204.  None is answered 500. -/
theorem writeHTTPResponse_unserializable_not_500 :
    sampleMarshal SamplePayload.unmarshalable = EncodeResult.fail "[\x7b"
      ∧ ((writeHTTPResponse false sampleJSONString sampleMarshal NewRecorder
            (sampleContext Operation.RetrieveMany "GET" (some SamplePayload.unmarshalable)
              (some (ErrorInput.single (NewError "Not Found" "no such thing" "things" 404))))).Code
            = 404
        ∧ (writeHTTPResponse true sampleJSONString sampleMarshal NewRecorder
            (sampleContext Operation.RetrieveMany "GET" (some SamplePayload.unmarshalable)
              (some (ErrorInput.single (NewError "Not Found" "no such thing" "things" 404))))).Code
            = 404
        ∧ (404 : Int) ≠ 500)
      ∧ ((writeHTTPResponse false sampleJSONString sampleMarshal NewRecorder
            (sampleContext Operation.Info "GET" (some SamplePayload.unmarshalable) none)).Code
            = 204
        ∧ (writeHTTPResponse true sampleJSONString sampleMarshal NewRecorder
            (sampleContext Operation.Info "GET" (some SamplePayload.unmarshalable) none)).Code
            = 204
        ∧ (writeHTTPResponse false sampleJSONString sampleMarshal NewRecorder
            (sampleContext Operation.Retrieve "HEAD" (some SamplePayload.unmarshalable) none)).Code
            = 204
        ∧ (writeHTTPResponse true sampleJSONString sampleMarshal NewRecorder
            (sampleContext Operation.Retrieve "HEAD" (some SamplePayload.unmarshalable) none)).Code
            = 204
        ∧ (204 : Int) ≠ 500) := by
  decide

/-- C14, amended: for every context with no error set, whose operation is not
Info and whose method is not HEAD, and whose output data the encoder rejects,
in either order of the rows for Create and for method HEAD, the response has
status 500, nothing is added to the body, and the whole response is the same
whatever the encoder had produced before it failed. -/
theorem writeHTTPResponse_unserializable {π : Type} (headFirst : Bool)
    (jsonString : String → String) (marshal : π → EncodeResult) (w : ResponseRecorder)
    (c : Context π) (d : π) (written : String) (hErr : c.Error = none)
    (hI : c.Operation ≠ Operation.Info) (hM : c.Method ≠ "HEAD")
    (hData : c.OutputData = some d) (hFail : marshal d = EncodeResult.fail written) :
    (writeHTTPResponse headFirst jsonString marshal w c).Code = 500
      ∧ (writeHTTPResponse headFirst jsonString marshal w c).Body = w.Body
      ∧ ∀ (marshal2 : π → EncodeResult) (written2 : String),
          marshal2 d = EncodeResult.fail written2 →
            writeHTTPResponse headFirst jsonString marshal2 w c
              = writeHTTPResponse headFirst jsonString marshal w c := by
  have h1 := writeHTTPResponse_fail headFirst jsonString marshal w c d written hErr hI hM
    hData hFail
  refine ⟨by rw [h1], by rw [h1], ?_⟩
  intro marshal2 written2 h2
  rw [h1, writeHTTPResponse_fail headFirst jsonString marshal2 w c d written2 hErr hI hM
    hData h2]

/-- Witness of the amended C14: the RetrieveMany context of the test with the
payload the encoder rejects, on a new recorder. -/
theorem writeHTTPResponse_unserializable_witness :
    (writeHTTPResponse false sampleJSONString sampleMarshal NewRecorder
        (sampleContext Operation.RetrieveMany "GET" (some SamplePayload.unmarshalable)
          none)).Code = 500
      ∧ (writeHTTPResponse false sampleJSONString sampleMarshal NewRecorder
        (sampleContext Operation.RetrieveMany "GET" (some SamplePayload.unmarshalable)
          none)).Body = NewRecorder.Body
      ∧ ∀ (marshal2 : SamplePayload → EncodeResult) (written2 : String),
          marshal2 SamplePayload.unmarshalable = EncodeResult.fail written2 →
            writeHTTPResponse false sampleJSONString marshal2 NewRecorder
                (sampleContext Operation.RetrieveMany "GET" (some SamplePayload.unmarshalable)
                  none)
              = writeHTTPResponse false sampleJSONString sampleMarshal NewRecorder
                (sampleContext Operation.RetrieveMany "GET" (some SamplePayload.unmarshalable)
                  none) :=
  writeHTTPResponse_unserializable false sampleJSONString sampleMarshal NewRecorder
    (sampleContext Operation.RetrieveMany "GET" (some SamplePayload.unmarshalable) none)
    SamplePayload.unmarshalable "[\x7b" rfl (by decide) (by decide) rfl rfl

/-! ## The error envelope -/

/-- C12: for a single error and for a non-empty ordered collection of errors,
`writeHTTPError` sets the status to the code of the first error and appends to
the body a JSON array with one object per error, in order, ended by a newline;
each object has the fields code, description, subject, title, data in that
order, data being null when absent.  On a new recorder the errors of the test
give status 42 and 43 and the bodies the test expects. -/
theorem writeHTTPError_envelope (jsonString : String → String) (w : ResponseRecorder)
    (origin : String) :
    (∀ e : Error,
        (writeHTTPError jsonString w origin (ErrorInput.single e)).Code = e.Code
          ∧ (writeHTTPError jsonString w origin (ErrorInput.single e)).Body
            = w.Body ++ "[" ++ encodeError jsonString e ++ "]" ++ "\n")
      ∧ (∀ (first : Error) (rest : List Error),
        (writeHTTPError jsonString w origin (ErrorInput.collection first rest)).Code = first.Code
          ∧ (writeHTTPError jsonString w origin (ErrorInput.collection first rest)).Body
            = w.Body ++ "[" ++ String.intercalate ","
                ((first :: rest).map (encodeError jsonString)) ++ "]" ++ "\n")
      ∧ (∀ (code : Int) (description subject title : String),
        encodeError jsonString (Error.mk code description subject title none)
          = "\x7b\"code\":" ++ toString code ++ ",\"description\":" ++ jsonString description
              ++ ",\"subject\":" ++ jsonString subject ++ ",\"title\":" ++ jsonString title
              ++ ",\"data\":" ++ "null" ++ "\x7d")
      ∧ (∀ (code : Int) (description subject title data : String),
        encodeError jsonString (Error.mk code description subject title (some data))
          = "\x7b\"code\":" ++ toString code ++ ",\"description\":" ++ jsonString description
              ++ ",\"subject\":" ++ jsonString subject ++ ",\"title\":" ++ jsonString title
              ++ ",\"data\":" ++ data ++ "\x7d")
      ∧ (writeHTTPError sampleJSONString NewRecorder "origin"
            (ErrorInput.single (NewError "title" "description" "subject" 42))).Code = 42
      ∧ (writeHTTPError sampleJSONString NewRecorder "origin"
            (ErrorInput.single (NewError "title" "description" "subject" 42))).Body
          = "[\x7b\"code\":42,\"description\":\"description\",\"subject\":\"subject\",\"title\":\"title\",\"data\":null\x7d]\n"
      ∧ (writeHTTPError sampleJSONString NewRecorder "origin"
            (ErrorInput.collection (NewError "title" "description" "subject" 43) [])).Code = 43
      ∧ (writeHTTPError sampleJSONString NewRecorder "origin"
            (ErrorInput.collection (NewError "title" "description" "subject" 43) [])).Body
          = "[\x7b\"code\":43,\"description\":\"description\",\"subject\":\"subject\",\"title\":\"title\",\"data\":null\x7d]\n" := by
  refine ⟨?_, ?_, ?_, ?_, by decide, by decide, by decide, by decide⟩
  · intro e
    exact ⟨rfl, by
      simp only [writeHTTPError, setCommonHeader, ErrorInput.entries, List.map_cons,
        List.map_nil, String.intercalate, String.intercalate.go]⟩
  · intro first rest
    exact ⟨rfl, by simp only [writeHTTPError, setCommonHeader, ErrorInput.entries]⟩
  · intro code description subject title
    simp only [encodeError]
  · intro code description subject title data
    simp only [encodeError]

/-! ## The common headers -/

/-- C13: for every origin, `setCommonHeader` sets
`Access-Control-Allow-Origin` to the origin when it is not empty and to `*`
when it is empty, and sets `Content-Type`, `Access-Control-Expose-Headers`,
`Access-Control-Allow-Methods`, `Access-Control-Allow-Headers` and
`Access-Control-Allow-Credentials` to values that do not depend on the
origin. -/
theorem setCommonHeader_values (w : ResponseRecorder) (origin : String) (h : origin ≠ "") :
    headerGet (setCommonHeader w origin).HeaderMap "Access-Control-Allow-Origin" = origin
      ∧ headerGet (setCommonHeader w "").HeaderMap "Access-Control-Allow-Origin" = "*"
      ∧ ∀ o : String,
          headerGet (setCommonHeader w o).HeaderMap "Content-Type"
              = "application/json; charset=UTF-8"
            ∧ headerGet (setCommonHeader w o).HeaderMap "Access-Control-Expose-Headers"
              = "X-Requested-With, X-Count-Local, X-Count-Total, X-PageCurrent, X-Page-Size, X-Page-Prev, X-Page-Next, X-Page-First, X-Page-Last, X-Namespace"
            ∧ headerGet (setCommonHeader w o).HeaderMap "Access-Control-Allow-Methods"
              = "GET, POST, PUT, DELETE, PATCH, HEAD, OPTIONS"
            ∧ headerGet (setCommonHeader w o).HeaderMap "Access-Control-Allow-Headers"
              = "Authorization, Content-Type, Cache-Control, If-Modified-Since, X-Requested-With, X-Count-Local, X-Count-Total, X-PageCurrent, X-Page-Size, X-Page-Prev, X-Page-Next, X-Page-First, X-Page-Last, X-Namespace"
            ∧ headerGet (setCommonHeader w o).HeaderMap "Access-Control-Allow-Credentials"
              = "true" := by
  have hOrigin : ∀ o : String,
      headerGet (setCommonHeader w o).HeaderMap "Access-Control-Allow-Origin"
        = if o = "" then "*" else o := by
    intro o
    simp only [setCommonHeader]
    rw [headerGet_headerSet_other _ _ _ _ (by decide),
      headerGet_headerSet_other _ _ _ _ (by decide),
      headerGet_headerSet_other _ _ _ _ (by decide),
      headerGet_headerSet_other _ _ _ _ (by decide), headerGet_headerSet_same]
  refine ⟨?_, ?_, ?_⟩
  · rw [hOrigin, if_neg h]
  · rw [hOrigin, if_pos rfl]
  · intro o
    simp only [setCommonHeader]
    refine ⟨?_, ?_, ?_, ?_, ?_⟩
    · rw [headerGet_headerSet_other _ _ _ _ (by decide),
        headerGet_headerSet_other _ _ _ _ (by decide),
        headerGet_headerSet_other _ _ _ _ (by decide),
        headerGet_headerSet_other _ _ _ _ (by decide),
        headerGet_headerSet_other _ _ _ _ (by decide), headerGet_headerSet_same]
    · rw [headerGet_headerSet_other _ _ _ _ (by decide),
        headerGet_headerSet_other _ _ _ _ (by decide),
        headerGet_headerSet_other _ _ _ _ (by decide), headerGet_headerSet_same]
    · rw [headerGet_headerSet_other _ _ _ _ (by decide),
        headerGet_headerSet_other _ _ _ _ (by decide), headerGet_headerSet_same]
    · rw [headerGet_headerSet_other _ _ _ _ (by decide), headerGet_headerSet_same]
    · rw [headerGet_headerSet_same]

/-- Witness of C13: the origin of the test on a new recorder. -/
theorem setCommonHeader_values_witness :
    "http://toto.com:8443" ≠ ""
      ∧ headerGet (setCommonHeader NewRecorder "http://toto.com:8443").HeaderMap
          "Access-Control-Allow-Origin" = "http://toto.com:8443"
      ∧ headerGet (setCommonHeader NewRecorder "").HeaderMap "Access-Control-Allow-Origin"
          = "*" :=
  ⟨by decide,
    (setCommonHeader_values NewRecorder "http://toto.com:8443" (by decide)).1,
    (setCommonHeader_values NewRecorder "http://toto.com:8443" (by decide)).2.1⟩

end Bahamut
